import Mathlib

/-!
Verification of the recipe-compiler core of sstool (src/sstool/main.py).

The Python functions are shallowly embedded as pure Lean functions:
YAML mappings become structures with Option-valued fields, Python
exceptions become Except values, and the filesystem (os.path.isfile)
is passed in as a Boolean oracle.  Python string operations used by
the code (str.strip, str.split with maxsplit=1, f-string composition,
truthiness of optional strings) are modelled explicitly below.
-/

namespace Sstool

/-- Whitespace characters removed by Python str.strip(). -/
def pyWhitespace (c : Char) : Bool :=
  c = ' ' || c = '\t' || c = '\n' || c = '\r' || c = '\x0B' || c = '\x0C'

/-- Python str.strip(): drop whitespace from both ends of the string. -/
def pyStrip (s : String) : String :=
  ⟨((s.data.dropWhile pyWhitespace).reverse.dropWhile pyWhitespace).reverse⟩

/-- Split a character list at the first occurrence of sep; none when sep
is absent.  Models Python split(sep, maxsplit=1) together with the
ValueError branch for a single-element result. -/
def splitAtChar (sep : Char) : List Char → Option (List Char × List Char)
  | [] => none
  | c :: cs =>
    if c = sep then some ([], cs)
    else
      match splitAtChar sep cs with
      | some (l, r) => some (c :: l, r)
      | none => none

/-- Python truthiness of an optional string: None and the empty string
are falsy, every other string is truthy. -/
def pyTruthy : Option String → Bool
  | none => false
  | some s => s ≠ ""

/-- Python `x or ''` on an optional string. -/
def pyOr : Option String → String
  | none => ""
  | some s => s

/-- Python s.startswith(pre): pre.data is a prefix of s.data. -/
def pyStartsWith (s pre : String) : Bool :=
  pre.data.isPrefixOf s.data

/-- Raw mirror section of config.yaml: a mapping with optional keys
enable and key (main.py lines 80-88 read it with dict.get). -/
structure MirrorConfig where
  enable : Option Bool
  key : Option String
deriving DecidableEq, Repr

/-- Python truthiness of the mirror mapping: an empty dict is falsy.
(Only the two recognised keys are representable, so non-emptiness is
having at least one of them.) -/
def MirrorConfig.pyNonEmpty (c : MirrorConfig) : Bool :=
  c.enable.isSome || c.key.isSome

/-- Resolved mirror policy: the _source and _key attributes set by
Mirror.__init__ (main.py lines 76-96). -/
structure Mirror where
  source : Option String
  key : Option String
deriving DecidableEq, Repr

/-- Mirror.__init__ (main.py lines 80-88): `if config:` takes the dict
branch only for a truthy (non-null, non-empty) mapping; there
enabled = config.get('enable', True), source is candidate iff enabled,
key = config.get('key', None); otherwise both attributes are None. -/
def Mirror.init (config : Option MirrorConfig) (source : Option String) : Mirror :=
  match config with
  | some c =>
    if c.pyNonEmpty then
      let enabled := c.enable.getD true
      { source := if enabled then source else none, key := c.key }
    else { source := none, key := none }
  | none => { source := none, key := none }

/-- The Python exceptions raised by validate_recipe_config and
generate_compiler_specs. -/
inductive PyError where
  | fileNotFound (msg : String)
  | nameError (name : String)
  | typeError (msg : String)
  | indexError (msg : String)
deriving DecidableEq, Repr

/-- Raw top-level config.yaml as far as validate_recipe_config inspects
it: the outer Option records whether the key is present in the mapping,
the inner Option of mirror records an explicit null value. -/
structure RawRecipeConfig where
  mirror : Option (Option MirrorConfig)
  system : Option String
deriving DecidableEq, Repr

/-- The config mapping after validate_recipe_config returns (mirror
normalised to null when absent, system validated). -/
structure RecipeConfig where
  mirror : Option MirrorConfig
  system : String
deriving DecidableEq, Repr

/-- validate_recipe_config (main.py lines 60-74).  The mirror branch
checks the key file on disk (isfile oracle) and binds the local
variable p; with mirror present but null, `'key' in None` raises
TypeError.  The system branch accepts only hohgant and balfrin; when
system is missing the code re-uses p in a file-does-not-exist message,
raising NameError when p was never bound. -/
def validate_recipe_config (isfile : String → Bool) (config : RawRecipeConfig) :
    Except PyError RecipeConfig :=
  let keyStep : Except PyError (Option MirrorConfig × Option String) :=
    match config.mirror with
    | some (some m) =>
      match m.key with
      | some p =>
        if isfile p then .ok (some m, some p)
        else .error (.fileNotFound ("The key file '" ++ p ++ "' does not exist"))
      | none => .ok (some m, none)
    | some none => .error (.typeError "argument of type 'NoneType' is not iterable")
    | none => .ok (none, none)
  match keyStep with
  | .error e => .error e
  | .ok (mirror, p) =>
    match config.system with
    | some s =>
      if s = "hohgant" ∨ s = "balfrin" then .ok { mirror := mirror, system := s }
      else .error (.fileNotFound ("The  system '" ++ s ++ "' must be one of hohgant or balfrin"))
    | none =>
      match p with
      | some path => .error (.fileNotFound ("The  '" ++ path ++ "' does not exist"))
      | none => .error (.nameError "p")

/-- One raw package set from packages.yaml, as read by
generate_package_specs: each field may be missing or null. -/
structure RawPackage where
  specs : Option (List String)
  mpi : Option String
  gpu : Option String
deriving DecidableEq, Repr

/-- A package set after resolution (the mutated entry of self.packages). -/
structure Package where
  specs : List String
  mpi : Option String
  gpu : Option String
deriving DecidableEq, Repr

/-- Recipe.valid_mpi_specs (main.py lines 103-107): implementation name
to (default version, extra build options). -/
def valid_mpi_specs : List (String × (Option String × Option String)) :=
  [("cray-mpich-binary", (none, none)),
   ("mpich", (some "4.1rc2", some "device=ch4 netmod=ofi +slurm")),
   ("mvapich2", (some "3.0a", some "+xpmem fabrics=ch4ofi ch4_max_vcis=4 process_managers=slurm"))]

/-- Membership test plus lookup in Recipe.valid_mpi_specs. -/
def lookupMpi (impl : String) : Option (Option String × Option String) :=
  (valid_mpi_specs.find? (fun kv => kv.1 = impl)).map (fun kv => kv.2)

/-- The version_opt local of generate_package_specs (main.py lines
206-209): explicit version if truthy, else the default version if
truthy, else the empty clause. -/
def version_opt (mpi_ver default_ver : Option String) : String :=
  if pyTruthy mpi_ver then "@" ++ pyOr mpi_ver
  else if pyTruthy default_ver then "@" ++ pyOr default_ver
  else ""

/-- Lines 199-202: mpi.strip().split(sep='@', maxsplit=1) with the
ValueError fallback when no '@' is present. -/
def splitMpi (mpi : String) : String × Option String :=
  match splitAtChar '@' (pyStrip mpi).data with
  | some (l, r) => (⟨l⟩, some ⟨r⟩)
  | none => (pyStrip mpi, none)

/-- Lines 199-219 for one truthy mpi string: split, look up the table
(raising Unsupported mpi otherwise), build the version clause, compose
and strip the spec, and append the cuda_arch=80 clause when gpu is
truthy and the implementation is not cray-mpich-binary. -/
def resolveMpiSpec (mpi : String) (gpu : Option String) : Except String String :=
  match lookupMpi (splitMpi mpi).1 with
  | none => .error ("Unsupported mpi: " ++ (splitMpi mpi).1)
  | some (default_ver, options) =>
    if pyTruthy gpu && (splitMpi mpi).1 != "cray-mpich-binary"
    then .ok (pyStrip ((splitMpi mpi).1 ++ version_opt (splitMpi mpi).2 default_ver
                        ++ " " ++ pyOr options) ++ " cuda_arch=80")
    else .ok (pyStrip ((splitMpi mpi).1 ++ version_opt (splitMpi mpi).2 default_ver
                        ++ " " ++ pyOr options))

/-- The first loop of generate_package_specs (lines 184-192): default
missing or null specs to [], missing mpi and gpu to None. -/
def normalizePackage (c : RawPackage) : Package :=
  { specs := c.specs.getD [], mpi := c.mpi, gpu := c.gpu }

/-- The body of the second loop of generate_package_specs (lines
195-219) for one package set: skip falsy mpi, otherwise append the
resolved MPI spec to the set's specs. -/
def resolvePackage (p : Package) : Except String Package :=
  match p.mpi with
  | none => .ok p
  | some mpi =>
    if mpi = "" then .ok p
    else
      match resolveMpiSpec mpi p.gpu with
      | .error e => .error e
      | .ok spec => .ok { p with specs := p.specs ++ [spec] }

/-- Recipe.generate_package_specs (main.py lines 180-221): normalise
every set, then resolve the sets in order; the first raised exception
aborts the whole batch and self.packages is never assigned. -/
def generate_package_specs : List (String × RawPackage) →
    Except String (List (String × Package))
  | [] => .ok []
  | (n, c) :: rest =>
    match resolvePackage (normalizePackage c) with
    | .error e => .error e
    | .ok p =>
      match generate_package_specs rest with
      | .error e => .error e
      | .ok ps => .ok ((n, p) :: ps)

/-- The packages block of a compiler stage: external tools plus
variant overrides (main.py lines 234-244 and 250-260). -/
structure StagePackages where
  external : List String
  variants : List (String × String)
deriving DecidableEq, Repr

/-- Raw stage of compilers.yaml holding a specs list. -/
structure RawCompilerStage where
  specs : List String
deriving DecidableEq, Repr

/-- Raw llvm stage of compilers.yaml: specs plus a requires field. -/
structure RawLlvm where
  specs : List String
  requires : String
deriving DecidableEq, Repr

/-- Raw compilers.yaml content used by generate_compiler_specs. -/
structure RawCompilers where
  bootstrap : RawCompilerStage
  gcc : RawCompilerStage
  llvm : Option RawLlvm
deriving DecidableEq, Repr

/-- Resolved bootstrap stage (packages and specs keys). -/
structure BootstrapStage where
  packages : StagePackages
  specs : List String
deriving DecidableEq, Repr

/-- Resolved gcc stage (packages, specs and requires keys). -/
structure GccStage where
  packages : StagePackages
  specs : List String
  requires : String
deriving DecidableEq, Repr

/-- Resolved llvm stage: its packages key is literally False. -/
structure LlvmStage where
  packages : Bool
  specs : List String
  requires : String
deriving DecidableEq, Repr

/-- The resolved self.compilers mapping. -/
structure Compilers where
  bootstrap : BootstrapStage
  gcc : GccStage
  llvm : Option LlvmStage
deriving DecidableEq, Repr

/-- The hard-coded bootstrap packages block (main.py lines 234-244);
note gawk appears twice in the external list, as in the source. -/
def bootstrap_packages : StagePackages :=
  { external := ["perl", "m4", "autoconf", "automake", "libtool", "gawk",
                 "python", "texinfo", "gawk"],
    variants := [("gcc", "[build_type=Release ~bootstrap +strip]"),
                 ("mpc", "[libs=static]"),
                 ("gmp", "[libs=static]"),
                 ("mpfr", "[libs=static]"),
                 ("zstd", "[libs=static]"),
                 ("zlib", "[~shared]")] }

/-- The hard-coded gcc packages block (main.py lines 250-260). -/
def gcc_packages : StagePackages :=
  { external := ["perl", "m4", "autoconf", "automake", "libtool", "gawk",
                 "python", "texinfo", "gawk"],
    variants := [("gcc", "[build_type=Release +profiled +strip]"),
                 ("mpc", "[libs=static]"),
                 ("gmp", "[libs=static]"),
                 ("mpfr", "[libs=static]"),
                 ("zstd", "[libs=static]"),
                 ("zlib", "[~shared]")] }

/-- The llvm loop body (main.py lines 268-273): an nvhpc spec and an
llvm spec each contribute one amended entry; a spec matching neither
test contributes nothing (there is no else branch). -/
def llvm_spec_transform (spec : String) : List String :=
  (if pyStartsWith spec "nvhpc" then [spec ++ "~mpi~blas~lapack"] else [])
  ++ (if pyStartsWith spec "llvm"
      then [spec ++ " +clang targets=x86 ~gold ^ninja@kitware"] else [])

/-- Recipe.generate_compiler_specs (main.py lines 226-278):
raw["bootstrap"]["specs"][0] raises IndexError on an empty list;
bootstrap's resolved specs are the suffixed first spec plus the fixed
squashfs spec; gcc keeps its raw specs and requires the raw bootstrap
spec; an llvm stage, when present, gets the filtered specs and a
verbatim requires. -/
def generate_compiler_specs (raw : RawCompilers) : Except PyError Compilers :=
  match raw.bootstrap.specs with
  | [] => .error (.indexError "list index out of range")
  | bootstrap_spec :: _ =>
    let bootstrap : BootstrapStage :=
      { packages := bootstrap_packages,
        specs := [bootstrap_spec ++ " languages=c,c++",
                  "squashfs default_compression=zstd"] }
    let gcc : GccStage :=
      { packages := gcc_packages,
        specs := raw.gcc.specs,
        requires := bootstrap_spec }
    let llvm : Option LlvmStage :=
      raw.llvm.map (fun l =>
        { packages := false,
          specs := l.specs.flatMap llvm_spec_transform,
          requires := l.requires })
    .ok { bootstrap := bootstrap, gcc := gcc, llvm := llvm }

/-! ## Helper lemmas -/

theorem splitAtChar_append_of_not_mem (sep : Char) (l1 l2 : List Char)
    (h : sep ∉ l1) : splitAtChar sep (l1 ++ sep :: l2) = some (l1, l2) := by
  induction l1 with
  | nil => simp [splitAtChar]
  | cons c cs ih =>
    have hc : ¬(c = sep) := fun he => h (he ▸ List.mem_cons_self c cs)
    have hcs : sep ∉ cs := fun hm => h (List.mem_cons_of_mem _ hm)
    simp [splitAtChar, hc, ih hcs]

theorem splitAtChar_eq_none (sep : Char) (l : List Char) (h : sep ∉ l) :
    splitAtChar sep l = none := by
  induction l with
  | nil => rfl
  | cons c cs ih =>
    have hc : ¬(c = sep) := fun he => h (he ▸ List.mem_cons_self c cs)
    have hcs : sep ∉ cs := fun hm => h (List.mem_cons_of_mem _ hm)
    simp [splitAtChar, hc, ih hcs]

theorem splitMpi_of_append (impl ver : String)
    (hs : pyStrip (impl ++ "@" ++ ver) = impl ++ "@" ++ ver)
    (hi : '@' ∉ impl.data) :
    splitMpi (impl ++ "@" ++ ver) = (impl, some ver) := by
  unfold splitMpi
  rw [hs]
  have hdata : (impl ++ "@" ++ ver).data = impl.data ++ '@' :: ver.data := by
    rw [String.data_append, String.data_append]
    simp
  rw [hdata, splitAtChar_append_of_not_mem _ _ _ hi]

theorem splitMpi_of_no_at (m : String) (hs : pyStrip m = m)
    (hm : '@' ∉ m.data) : splitMpi m = (m, none) := by
  unfold splitMpi
  rw [hs, splitAtChar_eq_none _ _ hm]

theorem lookupMpi_cases (impl : String) (v : Option String × Option String)
    (h : lookupMpi impl = some v) :
    impl = "cray-mpich-binary" ∨ impl = "mpich" ∨ impl = "mvapich2" := by
  by_cases h1 : "cray-mpich-binary" = impl
  · exact Or.inl h1.symm
  by_cases h2 : "mpich" = impl
  · exact Or.inr (Or.inl h2.symm)
  by_cases h3 : "mvapich2" = impl
  · exact Or.inr (Or.inr h3.symm)
  exfalso
  unfold lookupMpi valid_mpi_specs at h
  simp [List.find?, h1, h2, h3] at h

theorem lookupMpi_no_at (impl : String) (v : Option String × Option String)
    (h : lookupMpi impl = some v) : '@' ∉ impl.data := by
  rcases lookupMpi_cases impl v h with h1 | h1 | h1 <;> subst h1 <;> decide

theorem lookupMpi_pyStrip (impl : String) (v : Option String × Option String)
    (h : lookupMpi impl = some v) : pyStrip impl = impl := by
  rcases lookupMpi_cases impl v h with h1 | h1 | h1 <;> subst h1 <;> rfl

theorem lookupMpi_default_ver (impl : String) (dv opts : Option String)
    (h : lookupMpi impl = some (dv, opts)) :
    dv = none ∨ dv = some "4.1rc2" ∨ dv = some "3.0a" := by
  rcases lookupMpi_cases impl (dv, opts) h with h1 | h1 | h1 <;> subst h1 <;>
    simp only [lookupMpi, valid_mpi_specs, List.find?] at h <;>
    simp at h
  · exact Or.inl h.1.symm
  · exact Or.inr (Or.inl h.1.symm)
  · exact Or.inr (Or.inr h.1.symm)

theorem resolveMpiSpec_error_shape (mpi : String) (gpu : Option String)
    (e : String) (h : resolveMpiSpec mpi gpu = .error e) :
    ∃ impl, e = "Unsupported mpi: " ++ impl ∧ lookupMpi impl = none := by
  rcases hl : lookupMpi (splitMpi mpi).1 with _ | v
  · simp only [resolveMpiSpec, hl, Except.error.injEq] at h
    exact ⟨(splitMpi mpi).1, h.symm, hl⟩
  · rcases v with ⟨dv, opts⟩
    simp only [resolveMpiSpec, hl] at h
    by_cases hg : (pyTruthy gpu && (splitMpi mpi).1 != "cray-mpich-binary") = true
    · rw [if_pos hg] at h; simp at h
    · rw [if_neg hg] at h; simp at h

theorem resolvePackage_error_shape (p : Package) (e : String)
    (h : resolvePackage p = .error e) :
    ∃ impl, e = "Unsupported mpi: " ++ impl ∧ lookupMpi impl = none := by
  rcases hm : p.mpi with _ | s
  · simp only [resolvePackage, hm] at h
    exact absurd h (by simp)
  · by_cases hs : s = ""
    · simp only [resolvePackage, hm, if_pos hs] at h
      exact absurd h (by simp)
    · simp only [resolvePackage, hm, if_neg hs] at h
      rcases hr : resolveMpiSpec s p.gpu with e' | q
      · rw [hr] at h
        simp only [Except.error.injEq] at h
        exact h ▸ resolveMpiSpec_error_shape s p.gpu e' hr
      · rw [hr] at h; simp at h

theorem resolvePackage_bad_mpi (p : Package) (s : String)
    (hm : p.mpi = some s) (hs : s ≠ "")
    (hl : lookupMpi (splitMpi s).1 = none) :
    resolvePackage p = .error ("Unsupported mpi: " ++ (splitMpi s).1) := by
  simp only [resolvePackage, hm, if_neg hs, resolveMpiSpec, hl]

/-! ## Claim theorems -/

/-- Claim C1: resolution is deterministic and idempotent — two invocations
of generate_package_specs on the same raw packages mapping, and two
invocations of generate_compiler_specs on the same raw compilers mapping,
yield structurally equal results.  Both resolvers are embedded as pure
functions of the raw document values (the Python code reads no clock, no
randomness and no state outside its argument), so the two runs agree. -/
theorem resolution_deterministic (praw : List (String × RawPackage))
    (craw : RawCompilers)
    (r1 r2 : Except String (List (String × Package)))
    (c1 c2 : Except PyError Compilers)
    (h1 : generate_package_specs praw = r1)
    (h2 : generate_package_specs praw = r2)
    (h3 : generate_compiler_specs craw = c1)
    (h4 : generate_compiler_specs craw = c2) :
    r1 = r2 ∧ c1 = c2 :=
  ⟨h1.symm.trans h2, h3.symm.trans h4⟩

/-- Witness for C1 at a concrete recipe. -/
theorem resolution_deterministic_witness :
    generate_package_specs [("a", { specs := none, mpi := some "mpich", gpu := none })]
      = generate_package_specs [("a", { specs := none, mpi := some "mpich", gpu := none })]
    ∧ generate_compiler_specs
        { bootstrap := { specs := ["gcc@11"] }, gcc := { specs := ["gcc@11.3"] }, llvm := none }
      = generate_compiler_specs
        { bootstrap := { specs := ["gcc@11"] }, gcc := { specs := ["gcc@11.3"] }, llvm := none } :=
  resolution_deterministic _ _ _ _ _ _ rfl rfl rfl rfl

/-- Claim C4 (code bug): the spec requires a validation error naming the
system field when system is missing, but the code (main.py line 72)
re-uses the mirror-key local p in a file-does-not-exist message: with no
mirror key in scope it raises NameError on p, and with a mirror key it
raises FileNotFoundError about that unrelated key path.  Only the
unsupported-value branch (line 70) names the supported systems. -/
theorem validate_missing_system_behaviour :
    validate_recipe_config (fun _ => true) { mirror := none, system := none }
      = .error (.nameError "p")
    ∧ validate_recipe_config (fun _ => true)
        { mirror := some (some { enable := none, key := some "/k" }), system := none }
      = .error (.fileNotFound "The  '/k' does not exist")
    ∧ validate_recipe_config (fun _ => true) { mirror := none, system := some "daint" }
      = .error (.fileNotFound "The  system 'daint' must be one of hohgant or balfrin") :=
  ⟨rfl, rfl, rfl⟩

/-- Claim C7 counterexample: an empty (but non-null) mirror mapping is
falsy in Python, so Mirror.__init__ takes the no-mirror branch and the
source is None even though enable is absent (claimed default true) and a
valid candidate path is supplied. -/
theorem mirror_empty_config_cex :
    (Mirror.init (some { enable := none, key := none }) (some "/candidate")).source = none
    ∧ (some "/candidate" : Option String) ≠ none :=
  ⟨rfl, by simp⟩

/-- Claim C7 amended: for a null or empty mirror config the policy is
(source=null, key=null); for a non-empty mirror config, enabled defaults
to true when enable is absent, source equals the candidate exactly when
enabled (null when disabled), and key equals the config's key field
regardless of enabled. -/
theorem mirror_resolution_amended (c : MirrorConfig) (cand : Option String)
    (h : c.pyNonEmpty = true) :
    Mirror.init none cand = { source := none, key := none }
    ∧ Mirror.init (some { enable := none, key := none }) cand
        = { source := none, key := none }
    ∧ (Mirror.init (some c) cand).key = c.key
    ∧ (Mirror.init (some c) cand).source
        = (if c.enable.getD true then cand else none) := by
  refine ⟨rfl, rfl, ?_, ?_⟩ <;> simp [Mirror.init, h]

/-- Witness for C7 amended at a disabled mirror with a key. -/
theorem mirror_resolution_amended_witness :
    ({ enable := some false, key := some "/x" } : MirrorConfig).pyNonEmpty = true
    ∧ (Mirror.init none (some "/m") = { source := none, key := none }
       ∧ Mirror.init (some { enable := none, key := none }) (some "/m")
           = { source := none, key := none }
       ∧ (Mirror.init (some { enable := some false, key := some "/x" }) (some "/m")).key
           = ({ enable := some false, key := some "/x" } : MirrorConfig).key
       ∧ (Mirror.init (some { enable := some false, key := some "/x" }) (some "/m")).source
           = (if ({ enable := some false, key := some "/x" } : MirrorConfig).enable.getD true
              then some "/m" else none)) :=
  ⟨rfl, mirror_resolution_amended { enable := some false, key := some "/x" } (some "/m") rfl⟩

/-- Claim C9: for any raw compilers input whose bootstrap stage declares a
first spec, resolution succeeds up to the gcc stage and the resolved gcc
stage's requires field is that first spec exactly as written (before the
languages suffix is appended to bootstrap's own copy). -/
theorem gcc_requires_bootstrap_first_spec (raw : RawCompilers)
    (s0 : String) (rest : List String)
    (hb : raw.bootstrap.specs = s0 :: rest) :
    ∃ c, generate_compiler_specs raw = .ok c ∧ c.gcc.requires = s0 := by
  simp only [generate_compiler_specs, hb]
  exact ⟨_, rfl, rfl⟩

/-- Witness for C9. -/
theorem gcc_requires_bootstrap_first_spec_witness :
    ({ bootstrap := { specs := ["gcc@11 +bootstrap"] }, gcc := { specs := ["gcc@11.3"] },
       llvm := none } : RawCompilers).bootstrap.specs = "gcc@11 +bootstrap" :: []
    ∧ ∃ c, generate_compiler_specs
        { bootstrap := { specs := ["gcc@11 +bootstrap"] }, gcc := { specs := ["gcc@11.3"] },
          llvm := none } = .ok c ∧ c.gcc.requires = "gcc@11 +bootstrap" :=
  ⟨rfl, gcc_requires_bootstrap_first_spec _ _ _ rfl⟩

/-- Claim C10: the resolved bootstrap stage's specs list has exactly two
entries — the first declared spec with the languages suffix, then the
fixed squashfs spec — so every declared bootstrap spec after the first is
discarded (every resolved entry is one of those two strings). -/
theorem bootstrap_specs_two_entries (raw : RawCompilers)
    (s0 : String) (rest : List String)
    (hb : raw.bootstrap.specs = s0 :: rest) :
    ∃ c, generate_compiler_specs raw = .ok c ∧
      c.bootstrap.specs
        = [s0 ++ " languages=c,c++", "squashfs default_compression=zstd"] ∧
      ∀ t ∈ c.bootstrap.specs,
        t = s0 ++ " languages=c,c++" ∨ t = "squashfs default_compression=zstd" := by
  simp only [generate_compiler_specs, hb]
  refine ⟨_, rfl, rfl, ?_⟩
  intro t ht
  simpa using ht

/-- Witness for C10 with a second declared bootstrap spec. -/
theorem bootstrap_specs_two_entries_witness :
    ({ bootstrap := { specs := ["gcc@11", "extra@1"] }, gcc := { specs := ["gcc@11.3"] },
       llvm := none } : RawCompilers).bootstrap.specs = "gcc@11" :: ["extra@1"]
    ∧ ∃ c, generate_compiler_specs
        { bootstrap := { specs := ["gcc@11", "extra@1"] }, gcc := { specs := ["gcc@11.3"] },
          llvm := none } = .ok c ∧
      c.bootstrap.specs
        = ["gcc@11" ++ " languages=c,c++", "squashfs default_compression=zstd"] ∧
      ∀ t ∈ c.bootstrap.specs,
        t = "gcc@11" ++ " languages=c,c++" ∨ t = "squashfs default_compression=zstd" :=
  ⟨rfl, bootstrap_specs_two_entries _ _ _ rfl⟩

/-- Claim C8: mpich with no version resolves to exactly
mpich@4.1rc2 device=ch4 netmod=ofi +slurm, appended after the set's
declared specs; and stripping leaves no trailing-space artifact when the
options are empty (cray-mpich-binary resolves to the bare name). -/
theorem mpich_default_spec_resolution :
    generate_package_specs
        [("climate", { specs := some ["netcdf"], mpi := some "mpich", gpu := none })]
      = .ok [("climate",
          { specs := ["netcdf", "mpich@4.1rc2 device=ch4 netmod=ofi +slurm"],
            mpi := some "mpich", gpu := none })]
    ∧ resolveMpiSpec "mpich" none = .ok "mpich@4.1rc2 device=ch4 netmod=ofi +slurm"
    ∧ resolveMpiSpec "cray-mpich-binary" none = .ok "cray-mpich-binary" :=
  ⟨rfl, rfl, rfl⟩

/-- Claim C2: a batch containing a package set whose truthy mpi string
names an implementation outside valid_mpi_specs makes the whole
generate_package_specs call fail with the Unsupported mpi error; the
Except.error result carries no resolved package sets at all, so zero
specs are committed for every set in the batch. -/
theorem package_resolution_all_or_nothing (raw : List (String × RawPackage))
    (n : String) (c : RawPackage) (s : String)
    (hmem : (n, c) ∈ raw) (hmpi : c.mpi = some s) (hs : s ≠ "")
    (hbad : lookupMpi (splitMpi s).1 = none) :
    ∃ impl, generate_package_specs raw = .error ("Unsupported mpi: " ++ impl)
      ∧ lookupMpi impl = none := by
  induction raw with
  | nil => cases hmem
  | cons hd tl ih =>
    obtain ⟨m, d⟩ := hd
    rcases hres : resolvePackage (normalizePackage d) with e | q
    · obtain ⟨impl, he, hli⟩ := resolvePackage_error_shape _ _ hres
      exact ⟨impl, by simp [generate_package_specs, hres, he], hli⟩
    · rcases List.mem_cons.mp hmem with hh | hmem'
      · exfalso
        have hcd : c = d := congrArg Prod.snd hh
        have : resolvePackage (normalizePackage d)
            = .error ("Unsupported mpi: " ++ (splitMpi s).1) :=
          resolvePackage_bad_mpi _ s (by simp [normalizePackage, ← hcd, hmpi]) hs hbad
        rw [hres] at this
        cases this
      · obtain ⟨impl, hg, hli⟩ := ih hmem'
        exact ⟨impl, by simp [generate_package_specs, hres, hg], hli⟩

/-- Witness for C2: a good set followed by an openmpi set. -/
theorem package_resolution_all_or_nothing_witness :
    (("b", ({ specs := none, mpi := some "openmpi", gpu := none } : RawPackage)) ∈
        [("a", ({ specs := some ["x"], mpi := some "mpich", gpu := none } : RawPackage)),
         ("b", { specs := none, mpi := some "openmpi", gpu := none })]
     ∧ ({ specs := none, mpi := some "openmpi", gpu := none } : RawPackage).mpi
         = some "openmpi"
     ∧ ("openmpi" : String) ≠ ""
     ∧ lookupMpi (splitMpi "openmpi").1 = none)
    ∧ ∃ impl, generate_package_specs
        [("a", { specs := some ["x"], mpi := some "mpich", gpu := none }),
         ("b", { specs := none, mpi := some "openmpi", gpu := none })]
      = .error ("Unsupported mpi: " ++ impl) ∧ lookupMpi impl = none :=
  ⟨⟨by simp, rfl, by decide, rfl⟩,
   package_resolution_all_or_nothing _ "b"
     { specs := none, mpi := some "openmpi", gpu := none } "openmpi"
     (by simp) rfl (by decide) rfl⟩

/-- t is produced by the llvm loop body for a declared spec iff the spec
has one of the two recognised prefixes and t is its amended form. -/
theorem mem_llvm_spec_transform (t spec : String) :
    t ∈ llvm_spec_transform spec ↔
      (pyStartsWith spec "nvhpc" = true ∧ t = spec ++ "~mpi~blas~lapack")
      ∨ (pyStartsWith spec "llvm" = true
         ∧ t = spec ++ " +clang targets=x86 ~gold ^ninja@kitware") := by
  unfold llvm_spec_transform
  cases h1 : pyStartsWith spec "nvhpc" <;> cases h2 : pyStartsWith spec "llvm" <;> simp [h1, h2]

/-- Claim C3 counterexample: a declared llvm-stage spec with another
prefix is silently dropped (the loop at main.py lines 268-273 has no
else branch), not passed through: the resolved llvm specs list for the
declared spec gcc@12 is empty. -/
theorem llvm_other_prefix_dropped_cex :
    generate_compiler_specs
        { bootstrap := { specs := ["gcc@11"] }, gcc := { specs := ["gcc@11.3"] },
          llvm := some { specs := ["gcc@12"], requires := "gcc@11.3" } }
      = .ok { bootstrap := { packages := bootstrap_packages,
                             specs := ["gcc@11 languages=c,c++",
                                       "squashfs default_compression=zstd"] },
              gcc := { packages := gcc_packages, specs := ["gcc@11.3"],
                       requires := "gcc@11" },
              llvm := some { packages := false, specs := [], requires := "gcc@11.3" } }
    ∧ ("gcc@12" : String) ∉ ([] : List String) := by
  constructor
  · rfl
  · simp

/-- Claim C3 amended: an nvhpc-prefixed declared spec appears with
~mpi~blas~lapack appended, an llvm-prefixed declared spec appears with
the clang/ninja clause appended, and nothing else appears: every
resolved llvm spec is the amended form of an nvhpc- or llvm-prefixed
declared spec, so a spec with any other prefix is silently dropped. -/
theorem llvm_stage_spec_resolution (raw : RawCompilers) (l : RawLlvm)
    (s0 : String) (rest : List String)
    (hb : raw.bootstrap.specs = s0 :: rest) (hl : raw.llvm = some l) :
    ∃ c, generate_compiler_specs raw = .ok c ∧
    ∃ ls, c.llvm = some ls ∧ ls.requires = l.requires ∧
      (∀ spec ∈ l.specs, pyStartsWith spec "nvhpc" = true →
        (spec ++ "~mpi~blas~lapack") ∈ ls.specs) ∧
      (∀ spec ∈ l.specs, pyStartsWith spec "llvm" = true →
        (spec ++ " +clang targets=x86 ~gold ^ninja@kitware") ∈ ls.specs) ∧
      (∀ t ∈ ls.specs, ∃ spec ∈ l.specs,
        (pyStartsWith spec "nvhpc" = true ∧ t = spec ++ "~mpi~blas~lapack")
        ∨ (pyStartsWith spec "llvm" = true
           ∧ t = spec ++ " +clang targets=x86 ~gold ^ninja@kitware")) := by
  simp only [generate_compiler_specs, hb, hl, Option.map_some]
  refine ⟨_, rfl, _, rfl, rfl, ?_, ?_, ?_⟩
  · intro spec hmem hpre
    exact List.mem_flatMap.mpr ⟨spec, hmem, (mem_llvm_spec_transform _ _).mpr (Or.inl ⟨hpre, rfl⟩)⟩
  · intro spec hmem hpre
    exact List.mem_flatMap.mpr ⟨spec, hmem, (mem_llvm_spec_transform _ _).mpr (Or.inr ⟨hpre, rfl⟩)⟩
  · intro t ht
    obtain ⟨spec, hmem, hin⟩ := List.mem_flatMap.mp ht
    exact ⟨spec, hmem, (mem_llvm_spec_transform _ _).mp hin⟩

/-- Witness for C3 amended on a three-spec llvm stage. -/
theorem llvm_stage_spec_resolution_witness :
    ({ bootstrap := { specs := ["gcc@11"] }, gcc := { specs := ["gcc@11.3"] },
       llvm := some { specs := ["llvm@14", "nvhpc@22.5", "gcc@12"], requires := "gcc@11.3" } }
      : RawCompilers).bootstrap.specs = "gcc@11" :: []
    ∧ ({ bootstrap := { specs := ["gcc@11"] }, gcc := { specs := ["gcc@11.3"] },
         llvm := some { specs := ["llvm@14", "nvhpc@22.5", "gcc@12"], requires := "gcc@11.3" } }
        : RawCompilers).llvm
        = some { specs := ["llvm@14", "nvhpc@22.5", "gcc@12"], requires := "gcc@11.3" }
    ∧ ∃ c, generate_compiler_specs
        { bootstrap := { specs := ["gcc@11"] }, gcc := { specs := ["gcc@11.3"] },
          llvm := some { specs := ["llvm@14", "nvhpc@22.5", "gcc@12"], requires := "gcc@11.3" } }
        = .ok c ∧
      ∃ ls, c.llvm = some ls
        ∧ ls.requires
            = ({ specs := ["llvm@14", "nvhpc@22.5", "gcc@12"], requires := "gcc@11.3" }
               : RawLlvm).requires
        ∧ (∀ spec ∈ ({ specs := ["llvm@14", "nvhpc@22.5", "gcc@12"], requires := "gcc@11.3" }
              : RawLlvm).specs, pyStartsWith spec "nvhpc" = true →
            (spec ++ "~mpi~blas~lapack") ∈ ls.specs)
        ∧ (∀ spec ∈ ({ specs := ["llvm@14", "nvhpc@22.5", "gcc@12"], requires := "gcc@11.3" }
              : RawLlvm).specs, pyStartsWith spec "llvm" = true →
            (spec ++ " +clang targets=x86 ~gold ^ninja@kitware") ∈ ls.specs)
        ∧ (∀ t ∈ ls.specs, ∃ spec ∈
              ({ specs := ["llvm@14", "nvhpc@22.5", "gcc@12"], requires := "gcc@11.3" }
               : RawLlvm).specs,
            (pyStartsWith spec "nvhpc" = true ∧ t = spec ++ "~mpi~blas~lapack")
            ∨ (pyStartsWith spec "llvm" = true
               ∧ t = spec ++ " +clang targets=x86 ~gold ^ninja@kitware")) :=
  ⟨rfl, rfl, llvm_stage_spec_resolution _ _ _ _ rfl rfl⟩

/-- Claim C5: for a raw mpi string impl@ver with a table implementation
and a non-empty version (the string carrying no surrounding whitespace,
so that strip leaves it unchanged), the version clause of the resolved
spec is @ver — the explicit version overrides the table default — and
for the bare implementation name the table default is used: @default
when the implementation has one, empty clause when the default is null. -/
theorem mpi_explicit_version_overrides_default (impl ver : String)
    (dv opts : Option String)
    (hl : lookupMpi impl = some (dv, opts)) (hv : ver ≠ "")
    (hs : pyStrip (impl ++ "@" ++ ver) = impl ++ "@" ++ ver) :
    version_opt (splitMpi (impl ++ "@" ++ ver)).2 dv = "@" ++ ver
    ∧ resolveMpiSpec (impl ++ "@" ++ ver) none
        = .ok (pyStrip (impl ++ ("@" ++ ver) ++ " " ++ pyOr opts))
    ∧ splitMpi impl = (impl, none)
    ∧ resolveMpiSpec impl none
        = .ok (pyStrip (impl ++ version_opt none dv ++ " " ++ pyOr opts))
    ∧ version_opt none dv = dv.elim "" (fun d => "@" ++ d) := by
  have hi : '@' ∉ impl.data := lookupMpi_no_at impl _ hl
  have hsplit : splitMpi (impl ++ "@" ++ ver) = (impl, some ver) :=
    splitMpi_of_append impl ver hs hi
  have hvo : version_opt (some ver) dv = "@" ++ ver := by
    simp [version_opt, pyTruthy, pyOr, hv]
  have hsplit2 : splitMpi impl = (impl, none) :=
    splitMpi_of_no_at impl (lookupMpi_pyStrip impl _ hl) hi
  refine ⟨by rw [hsplit]; exact hvo, ?_, hsplit2, ?_, ?_⟩
  · simp only [resolveMpiSpec, hsplit, hl]
    simp [pyTruthy, hvo]
  · simp only [resolveMpiSpec, hsplit2, hl]
    simp [pyTruthy]
  · rcases lookupMpi_default_ver impl dv opts hl with h | h | h <;> subst h <;> rfl

/-- Witness for C5 at mpich@4.2. -/
theorem mpi_explicit_version_overrides_default_witness :
    (lookupMpi "mpich" = some (some "4.1rc2", some "device=ch4 netmod=ofi +slurm")
     ∧ ("4.2" : String) ≠ ""
     ∧ pyStrip ("mpich" ++ "@" ++ "4.2") = "mpich" ++ "@" ++ "4.2")
    ∧ (version_opt (splitMpi ("mpich" ++ "@" ++ "4.2")).2 (some "4.1rc2") = "@" ++ "4.2"
       ∧ resolveMpiSpec ("mpich" ++ "@" ++ "4.2") none
           = .ok (pyStrip ("mpich" ++ ("@" ++ "4.2") ++ " "
               ++ pyOr (some "device=ch4 netmod=ofi +slurm")))
       ∧ splitMpi "mpich" = ("mpich", none)
       ∧ resolveMpiSpec "mpich" none
           = .ok (pyStrip ("mpich" ++ version_opt none (some "4.1rc2") ++ " "
               ++ pyOr (some "device=ch4 netmod=ofi +slurm")))
       ∧ version_opt none (some "4.1rc2")
           = (some "4.1rc2").elim "" (fun d => "@" ++ d)) :=
  ⟨⟨rfl, by decide, rfl⟩,
   mpi_explicit_version_overrides_default "mpich" "4.2"
     (some "4.1rc2") (some "device=ch4 netmod=ofi +slurm") rfl (by decide) rfl⟩

/-- Claim C6 counterexample: the ends-with iff fails as stated — for the
raw mpi string cray-mpich-binary@ cuda_arch=80 with a truthy gpu field,
the implementation is cray-mpich-binary yet the resolved spec does end
with the cuda_arch=80 clause, carried in by the explicit version text
rather than by the GPU branch. -/
theorem gpu_cuda_arch_iff_cex :
    (splitMpi "cray-mpich-binary@ cuda_arch=80").1 = "cray-mpich-binary"
    ∧ pyTruthy (some "on") = true
    ∧ resolveMpiSpec "cray-mpich-binary@ cuda_arch=80" (some "on")
        = .ok ("cray-mpich-binary@" ++ " cuda_arch=80") :=
  ⟨rfl, rfl, rfl⟩

/-- Claim C6 amended: with a truthy gpu field and a table implementation,
the GPU branch appends the cuda_arch=80 clause to the composed spec
exactly when the implementation is not cray-mpich-binary; for
cray-mpich-binary the resolved spec is the bare composition with nothing
appended (an explicitly supplied version string may still make the
result end in that text, which is what falsifies the iff as stated). -/
theorem gpu_cuda_arch_amended (mpi : String) (gpu : Option String)
    (dv opts : Option String)
    (hl : lookupMpi (splitMpi mpi).1 = some (dv, opts))
    (hg : pyTruthy gpu = true) :
    resolveMpiSpec mpi gpu =
      (if (splitMpi mpi).1 = "cray-mpich-binary"
       then .ok (pyStrip ((splitMpi mpi).1 ++ version_opt (splitMpi mpi).2 dv
                           ++ " " ++ pyOr opts))
       else .ok (pyStrip ((splitMpi mpi).1 ++ version_opt (splitMpi mpi).2 dv
                           ++ " " ++ pyOr opts) ++ " cuda_arch=80")) := by
  by_cases hc : (splitMpi mpi).1 = "cray-mpich-binary"
  · rw [hc] at hl
    simp [resolveMpiSpec, hl, hg, hc]
  · have hb : ((splitMpi mpi).1 != "cray-mpich-binary") = true := bne_iff_ne.mpr hc
    simp [resolveMpiSpec, hl, hg, hb, hc]

/-- Witness for C6 amended at mvapich2 with gpu set. -/
theorem gpu_cuda_arch_amended_witness :
    (lookupMpi (splitMpi "mvapich2").1
        = some (some "3.0a",
                some "+xpmem fabrics=ch4ofi ch4_max_vcis=4 process_managers=slurm")
     ∧ pyTruthy (some "on") = true)
    ∧ resolveMpiSpec "mvapich2" (some "on") =
      (if (splitMpi "mvapich2").1 = "cray-mpich-binary"
       then .ok (pyStrip ((splitMpi "mvapich2").1
                   ++ version_opt (splitMpi "mvapich2").2 (some "3.0a") ++ " "
                   ++ pyOr (some "+xpmem fabrics=ch4ofi ch4_max_vcis=4 process_managers=slurm")))
       else .ok (pyStrip ((splitMpi "mvapich2").1
                   ++ version_opt (splitMpi "mvapich2").2 (some "3.0a") ++ " "
                   ++ pyOr (some "+xpmem fabrics=ch4ofi ch4_max_vcis=4 process_managers=slurm"))
                 ++ " cuda_arch=80")) :=
  ⟨⟨rfl, rfl⟩,
   gpu_cuda_arch_amended "mvapich2" (some "on") (some "3.0a")
     (some "+xpmem fabrics=ch4ofi ch4_max_vcis=4 process_managers=slurm") rfl rfl⟩

end Sstool
